import Mathlib

/-!
Verification of the Apollo planning `Scenario` controller
(`modules/planning/scenarios/scenario.cc`): a shallow embedding of the
scenario/stage finite-state controller and proofs of its spec properties.

The controller owns a declared ordered list of stage types, a map from
stage type to that stage's configuration block, the single currently
active stage instance, and an aggregate scenario status.  `Init` builds
the configuration map, validates coverage, and constructs the entry
stage; `Process` runs one planning cycle: it delegates to the current
stage and applies the transition policy to the stage's outcome.

Stage-internal behaviour is external to the controller: per cycle, the
stage's `Process` return value and its `NextStage` answer are supplied
as oracle inputs to the step function.  The stage factory (`CreateStage`
in the source, implemented outside this translation unit) is an abstract
parameter `factory : Nat → StageConfig → Option Stage`, indexed by the
number of constructions performed so far so that distinct calls may
yield distinct results; the state carries a ghost counter
`factory_calls` to express "the factory was invoked n times".
-/

namespace Apollo

/-- Stage type tags.  `apollo.planning.StageType` is a protobuf enum;
we embed it as `Nat`.  The reserved sentinel `NO_STAGE` is value `0`. -/
abbrev StageType := Nat

/-- The sentinel "no stage" marker `StageType::NO_STAGE`. -/
def NO_STAGE : StageType := 0

/-- Return values of a stage's per-cycle `Process`
(`Stage::StageStatus`).  The controller handles `ERROR`, `RUNNING` and
`FINISHED` explicitly; `OTHER` stands for any outcome outside those
three, which the source sends to the defensive `default:` branch. -/
inductive StageStatus where
  | ERROR
  | RUNNING
  | FINISHED
  | OTHER
deriving DecidableEq, Repr

/-- Aggregate scenario status (`Scenario::ScenarioStatus`). -/
inductive ScenarioStatus where
  | STATUS_UNKNOWN
  | STATUS_PROCESSING
  | STATUS_DONE
deriving DecidableEq, Repr

/-- A live stage instance as the controller sees it: the controller only
ever queries its `stage_type()` (its `Process`/`NextStage` answers are
the per-cycle oracle inputs). -/
structure Stage where
  stage_type : StageType
deriving DecidableEq, Repr

/-- A per-stage configuration block (`ScenarioConfig::StageConfig`),
tagged with its owning stage type; its remaining content is opaque to
the controller and not modelled. -/
structure StageConfig where
  stage_type : StageType
deriving DecidableEq, Repr

/-- The scenario configuration: the ordered declared stage-type sequence
(`stage_type()`, first element is the entry stage) and the collection of
per-stage configuration blocks (`stage_config()`). -/
structure ScenarioConfig where
  stage_type : List StageType
  stage_config : List StageConfig
deriving DecidableEq, Repr

/-- The controller's mutable state: the borrowed configuration blocks
(the `stage_config_map_` index is recomputed from them by
`buildConfigMap`), the exclusively owned current stage handle
(`current_stage_`, `none` = null pointer), the stored aggregate status
(`scenario_status_`), and the ghost count of stage-factory invocations. -/
structure ScenarioState where
  stage_config : List StageConfig
  current_stage : Option Stage
  scenario_status : ScenarioStatus
  factory_calls : Nat
deriving DecidableEq, Repr

/-- The `stage_config_map_` index built by the loop at scenario.cc:51-53:
`stage_config_map_[stage_config.stage_type()] = &stage_config` inserts in
list order, so for duplicate stage types the later block overwrites the
earlier one; lookup therefore returns the last matching block. -/
def buildConfigMap : List StageConfig → StageType → Option StageConfig
  | [], _ => none
  | c :: cs, t =>
    match buildConfigMap cs t with
    | some c2 => some c2
    | none => if t = c.stage_type then some c else none

/-- `Scenario::Init` (scenario.cc:41-65).  `none` models a fatal
`ACHECK` abort: the declared stage sequence must be non-empty, and every
declared stage type must have an entry in the configuration index.  On
success the entry stage is constructed via the factory — the result is
installed unchecked (`Init` does not test it for null) — and the ghost
factory counter is set to 1.  (The write of the scenario type into the
shared planning context at scenario.cc:44-49 is external state, not
modelled.) -/
def Init (factory : Nat → StageConfig → Option Stage)
    (cfg : ScenarioConfig) : Option ScenarioState :=
  match cfg.stage_type with
  | [] => none
  | t0 :: rest =>
    if (t0 :: rest).all (fun t => (buildConfigMap cfg.stage_config t).isSome) then
      match buildConfigMap cfg.stage_config t0 with
      | some c0 =>
        some { stage_config := cfg.stage_config
               current_stage := factory 0 c0
               scenario_status := ScenarioStatus.STATUS_UNKNOWN
               factory_calls := 1 }
      | none => none
    else none

/-- `Scenario::Process` (scenario.cc:67-124), one planning cycle.
`ret` is what the current stage's own `Process` returns this cycle and
`next` is what its `NextStage()` answers (queried by the source only in
the `FINISHED` case).  Returns the status handed back to the caller
together with the post-state.  Branches, in source order: null current
stage (line 69, returns `STATUS_UNKNOWN` without storing it); current
stage already the sentinel (line 73, `DONE`); then the switch on the
stage outcome — `ERROR` (line 80), `RUNNING` (line 85), `FINISHED`
(line 90) with its self-transition / sentinel / missing-config /
construction branches, and the `default` branch (line 118). -/
def Process (factory : Nat → StageConfig → Option Stage)
    (s : ScenarioState) (ret : StageStatus) (next : StageType) :
    ScenarioStatus × ScenarioState :=
  match s.current_stage with
  | none => (ScenarioStatus.STATUS_UNKNOWN, s)
  | some st =>
    if st.stage_type = NO_STAGE then
      (ScenarioStatus.STATUS_DONE,
       { s with scenario_status := ScenarioStatus.STATUS_DONE })
    else
      match ret with
      | StageStatus.ERROR =>
        (ScenarioStatus.STATUS_UNKNOWN,
         { s with scenario_status := ScenarioStatus.STATUS_UNKNOWN })
      | StageStatus.RUNNING =>
        (ScenarioStatus.STATUS_PROCESSING,
         { s with scenario_status := ScenarioStatus.STATUS_PROCESSING })
      | StageStatus.FINISHED =>
        if next ≠ st.stage_type then
          if next = NO_STAGE then
            (ScenarioStatus.STATUS_DONE,
             { s with scenario_status := ScenarioStatus.STATUS_DONE })
          else
            match buildConfigMap s.stage_config next with
            | none =>
              (ScenarioStatus.STATUS_UNKNOWN,
               { s with scenario_status := ScenarioStatus.STATUS_UNKNOWN })
            | some c =>
              match factory s.factory_calls c with
              | none =>
                (ScenarioStatus.STATUS_UNKNOWN,
                 { s with current_stage := none
                          factory_calls := s.factory_calls + 1 })
              | some ns =>
                let s1 := { s with current_stage := some ns
                                   factory_calls := s.factory_calls + 1 }
                if ns.stage_type ≠ NO_STAGE then
                  (ScenarioStatus.STATUS_PROCESSING,
                   { s1 with scenario_status := ScenarioStatus.STATUS_PROCESSING })
                else
                  (ScenarioStatus.STATUS_DONE,
                   { s1 with scenario_status := ScenarioStatus.STATUS_DONE })
        else
          if st.stage_type ≠ NO_STAGE then
            (ScenarioStatus.STATUS_PROCESSING,
             { s with scenario_status := ScenarioStatus.STATUS_PROCESSING })
          else
            (ScenarioStatus.STATUS_DONE,
             { s with scenario_status := ScenarioStatus.STATUS_DONE })
      | StageStatus.OTHER =>
        (ScenarioStatus.STATUS_UNKNOWN,
         { s with scenario_status := ScenarioStatus.STATUS_UNKNOWN })

/-- Run `Process` over a list of per-cycle oracle inputs, collecting the
status returned each cycle and the final state. -/
def processSeq (factory : Nat → StageConfig → Option Stage)
    (s : ScenarioState) :
    List (StageStatus × StageType) → List ScenarioStatus × ScenarioState
  | [] => ([], s)
  | b :: bs =>
    let r := Process factory s b.1 b.2
    let r2 := processSeq factory r.2 bs
    (r.1 :: r2.1, r2.2)

open StageStatus ScenarioStatus

/-! ### Branch lemmas for `Process`, one per source branch -/

/-- scenario.cc:69-72 — null current stage: return `STATUS_UNKNOWN`
without touching the state (the stored status is not updated). -/
theorem Process_null (f : Nat → StageConfig → Option Stage)
    (s : ScenarioState) (ret : StageStatus) (next : StageType)
    (h : s.current_stage = none) :
    Process f s ret next = (STATUS_UNKNOWN, s) := by
  simp [Process, h]

/-- scenario.cc:73-76 — the current stage is already the sentinel:
the scenario is immediately `DONE`. -/
theorem Process_stage_sentinel (f : Nat → StageConfig → Option Stage)
    (s : ScenarioState) (st : Stage) (ret : StageStatus) (next : StageType)
    (h : s.current_stage = some st) (h0 : st.stage_type = NO_STAGE) :
    Process f s ret next =
      (STATUS_DONE, { s with scenario_status := STATUS_DONE }) := by
  simp [Process, h, h0]

/-- scenario.cc:80-84 — stage outcome `ERROR`: status `UNKNOWN`, stage
left in place. -/
theorem Process_error (f : Nat → StageConfig → Option Stage)
    (s : ScenarioState) (st : Stage) (next : StageType)
    (h : s.current_stage = some st) (h0 : st.stage_type ≠ NO_STAGE) :
    Process f s ERROR next =
      (STATUS_UNKNOWN, { s with scenario_status := STATUS_UNKNOWN }) := by
  simp [Process, h, h0]

/-- scenario.cc:85-88 — stage outcome `RUNNING`: status `PROCESSING`,
no transition. -/
theorem Process_running (f : Nat → StageConfig → Option Stage)
    (s : ScenarioState) (st : Stage) (next : StageType)
    (h : s.current_stage = some st) (h0 : st.stage_type ≠ NO_STAGE) :
    Process f s RUNNING next =
      (STATUS_PROCESSING, { s with scenario_status := STATUS_PROCESSING }) := by
  simp [Process, h, h0]

/-- scenario.cc:118-121 — unrecognized stage outcome: defensive
default to `UNKNOWN`. -/
theorem Process_other (f : Nat → StageConfig → Option Stage)
    (s : ScenarioState) (st : Stage) (next : StageType)
    (h : s.current_stage = some st) (h0 : st.stage_type ≠ NO_STAGE) :
    Process f s OTHER next =
      (STATUS_UNKNOWN, { s with scenario_status := STATUS_UNKNOWN }) := by
  simp [Process, h, h0]

/-- scenario.cc:90-92, 110-115 — `FINISHED` with the successor equal to
the current stage's own type: no structural transition, status
`PROCESSING`, same instance continues. -/
theorem Process_fin_self (f : Nat → StageConfig → Option Stage)
    (s : ScenarioState) (st : Stage)
    (h : s.current_stage = some st) (h0 : st.stage_type ≠ NO_STAGE) :
    Process f s FINISHED st.stage_type =
      (STATUS_PROCESSING, { s with scenario_status := STATUS_PROCESSING }) := by
  simp [Process, h, h0]

/-- scenario.cc:95-98 (and 73-76 when the current stage is itself the
sentinel) — `FINISHED` with sentinel successor: status `DONE`, the
current instance is retained, no construction is attempted. -/
theorem Process_fin_sentinel (f : Nat → StageConfig → Option Stage)
    (s : ScenarioState) (st : Stage)
    (h : s.current_stage = some st) :
    Process f s FINISHED NO_STAGE =
      (STATUS_DONE, { s with scenario_status := STATUS_DONE }) := by
  by_cases h0 : st.stage_type = NO_STAGE
  · simp [Process, h, h0]
  · simp [Process, h, h0, Ne.symm h0]

/-- scenario.cc:99-103 — `FINISHED` with a successor absent from the
configuration index: status `UNKNOWN`, no construction, stage retained. -/
theorem Process_fin_missing (f : Nat → StageConfig → Option Stage)
    (s : ScenarioState) (st : Stage) (next : StageType)
    (h : s.current_stage = some st) (h0 : st.stage_type ≠ NO_STAGE)
    (hne : next ≠ st.stage_type) (hns : next ≠ NO_STAGE)
    (hc : buildConfigMap s.stage_config next = none) :
    Process f s FINISHED next =
      (STATUS_UNKNOWN, { s with scenario_status := STATUS_UNKNOWN }) := by
  simp [Process, h, h0, hne, hns, hc]

/-- scenario.cc:104-108 — the factory yields no instance at a
transition: status `UNKNOWN`; the handle was overwritten by the null
result, so no stage remains (the stored status is not updated). -/
theorem Process_fin_facfail (f : Nat → StageConfig → Option Stage)
    (s : ScenarioState) (st : Stage) (next : StageType) (c : StageConfig)
    (h : s.current_stage = some st) (h0 : st.stage_type ≠ NO_STAGE)
    (hne : next ≠ st.stage_type) (hns : next ≠ NO_STAGE)
    (hc : buildConfigMap s.stage_config next = some c)
    (hf : f s.factory_calls c = none) :
    Process f s FINISHED next =
      (STATUS_UNKNOWN,
       { s with current_stage := none
                factory_calls := s.factory_calls + 1 }) := by
  simp [Process, h, h0, hne, hns, hc, hf]

/-- scenario.cc:104-116 — successful transition to a non-sentinel
successor: new instance installed, status `PROCESSING`. -/
theorem Process_fin_trans (f : Nat → StageConfig → Option Stage)
    (s : ScenarioState) (st ns : Stage) (next : StageType) (c : StageConfig)
    (h : s.current_stage = some st) (h0 : st.stage_type ≠ NO_STAGE)
    (hne : next ≠ st.stage_type) (hns : next ≠ NO_STAGE)
    (hc : buildConfigMap s.stage_config next = some c)
    (hf : f s.factory_calls c = some ns) (hn : ns.stage_type ≠ NO_STAGE) :
    Process f s FINISHED next =
      (STATUS_PROCESSING,
       { s with current_stage := some ns
                factory_calls := s.factory_calls + 1
                scenario_status := STATUS_PROCESSING }) := by
  simp [Process, h, h0, hne, hns, hc, hf, hn]

/-- scenario.cc:104-115 — successful transition but the constructed
stage's own type is the sentinel: status `DONE`. -/
theorem Process_fin_trans_done (f : Nat → StageConfig → Option Stage)
    (s : ScenarioState) (st ns : Stage) (next : StageType) (c : StageConfig)
    (h : s.current_stage = some st) (h0 : st.stage_type ≠ NO_STAGE)
    (hne : next ≠ st.stage_type) (hns : next ≠ NO_STAGE)
    (hc : buildConfigMap s.stage_config next = some c)
    (hf : f s.factory_calls c = some ns) (hn : ns.stage_type = NO_STAGE) :
    Process f s FINISHED next =
      (STATUS_DONE,
       { s with current_stage := some ns
                factory_calls := s.factory_calls + 1
                scenario_status := STATUS_DONE }) := by
  simp [Process, h, h0, hne, hns, hc, hf, hn]

/-! ### Lemmas about `processSeq`, `buildConfigMap` and `Init` -/

theorem processSeq_nil (f : Nat → StageConfig → Option Stage)
    (s : ScenarioState) : processSeq f s [] = ([], s) := rfl

theorem processSeq_cons (f : Nat → StageConfig → Option Stage)
    (s : ScenarioState) (b : StageStatus × StageType)
    (bs : List (StageStatus × StageType)) :
    processSeq f s (b :: bs) =
      ((Process f s b.1 b.2).1 :: (processSeq f (Process f s b.1 b.2).2 bs).1,
       (processSeq f (Process f s b.1 b.2).2 bs).2) := rfl

/-- With a null current stage, any run of `Process` calls returns
`STATUS_UNKNOWN` every cycle and leaves the state exactly as it was:
the stage's `Process` and the factory are unreachable from this state. -/
theorem processSeq_null (f : Nat → StageConfig → Option Stage)
    (s : ScenarioState) (h : s.current_stage = none)
    (bs : List (StageStatus × StageType)) :
    processSeq f s bs = (List.replicate bs.length STATUS_UNKNOWN, s) := by
  induction bs with
  | nil => simp [processSeq]
  | cons b bs ih =>
    rw [processSeq_cons, Process_null f s b.1 b.2 h, ih, List.length_cons,
      List.replicate_succ]

/-- A lookup hit identifies a block from the list with the queried type
(the map's keys come only from the configuration blocks). -/
theorem buildConfigMap_some_mem (l : List StageConfig) (t : StageType)
    (c : StageConfig) (h : buildConfigMap l t = some c) :
    c ∈ l ∧ c.stage_type = t := by
  induction l with
  | nil => simp [buildConfigMap] at h
  | cons a l ih =>
    rw [buildConfigMap] at h
    rcases hm : buildConfigMap l t with _ | c2
    · rw [hm] at h
      by_cases ht : t = a.stage_type
      · rw [if_pos ht] at h
        injection h with h2
        subst h2
        exact ⟨List.mem_cons_self a l, ht.symm⟩
      · rw [if_neg ht] at h
        cases h
    · rw [hm] at h
      cases h
      exact ⟨List.mem_cons_of_mem a (ih hm).1, (ih hm).2⟩

/-- A lookup hit for every type that has a block in the list. -/
theorem buildConfigMap_isSome_of_mem (l : List StageConfig)
    (c : StageConfig) (h : c ∈ l) :
    (buildConfigMap l c.stage_type).isSome = true := by
  induction l with
  | nil => simp at h
  | cons a l ih =>
    rw [buildConfigMap]
    rcases hm : buildConfigMap l c.stage_type with _ | c2
    · rcases List.mem_cons.mp h with h1 | h2
      · subst h1
        simp
      · exact absurd (ih h2) (by simp [hm])
    · simp

/-- scenario.cc:41-42 — `Init` aborts fatally on an empty declared
stage sequence. -/
theorem Init_empty (f : Nat → StageConfig → Option Stage)
    (cfg : ScenarioConfig) (h : cfg.stage_type = []) :
    Init f cfg = none := by
  simp [Init, h]

/-- scenario.cc:54-59 — `Init` aborts fatally when some declared stage
type has no configuration block. -/
theorem Init_missing (f : Nat → StageConfig → Option Stage)
    (cfg : ScenarioConfig) (t : StageType)
    (hmem : t ∈ cfg.stage_type)
    (hmiss : buildConfigMap cfg.stage_config t = none) :
    Init f cfg = none := by
  rcases hst : cfg.stage_type with _ | ⟨t0, rest⟩
  · simp [Init, hst]
  · rw [hst] at hmem
    have hall : ((t0 :: rest).all
        (fun t => (buildConfigMap cfg.stage_config t).isSome)) = false := by
      rw [List.all_eq_false]
      exact ⟨t, hmem, by simp [hmiss]⟩
    simp [Init, hst, hall]

/-- scenario.cc:41-65 — when the declared sequence is non-empty and
every declared stage type is covered, `Init` completes: it keeps the
configuration blocks, installs the factory's result for the first
declared stage type's block unchecked, and has invoked the factory
exactly once. -/
theorem Init_success (f : Nat → StageConfig → Option Stage)
    (cfg : ScenarioConfig) (t0 : StageType) (rest : List StageType)
    (c0 : StageConfig)
    (h : cfg.stage_type = t0 :: rest)
    (hcov : ∀ t ∈ cfg.stage_type,
      (buildConfigMap cfg.stage_config t).isSome = true)
    (h0 : buildConfigMap cfg.stage_config t0 = some c0) :
    Init f cfg =
      some { stage_config := cfg.stage_config
             current_stage := f 0 c0
             scenario_status := STATUS_UNKNOWN
             factory_calls := 1 } := by
  rw [h] at hcov
  have hall : ((t0 :: rest).all
      (fun t => (buildConfigMap cfg.stage_config t).isSome)) = true := by
    rw [List.all_eq_true]
    exact hcov
  simp [Init, h, hall, h0]

/-- `Init` succeeds exactly when the declared sequence is non-empty and
every declared stage type has a configuration block. -/
theorem Init_isSome_iff (f : Nat → StageConfig → Option Stage)
    (cfg : ScenarioConfig) :
    (Init f cfg).isSome = true ↔
      (cfg.stage_type ≠ [] ∧ ∀ t ∈ cfg.stage_type,
        (buildConfigMap cfg.stage_config t).isSome = true) := by
  constructor
  · intro hs
    rcases hst : cfg.stage_type with _ | ⟨t0, rest⟩
    · rw [Init_empty f cfg hst] at hs
      simp at hs
    · refine ⟨by simp [hst], ?_⟩
      intro t hmem
      rcases hm : buildConfigMap cfg.stage_config t with _ | c
      · rw [Init_missing f cfg t (by rw [hst]; exact hmem) hm] at hs
        simp at hs
      · simp
  · rintro ⟨hne, hcov⟩
    rcases hst : cfg.stage_type with _ | ⟨t0, rest⟩
    · exact absurd hst hne
    · have h0 : (buildConfigMap cfg.stage_config t0).isSome = true :=
        hcov t0 (by rw [hst]; exact List.mem_cons_self t0 rest)
      rcases hm : buildConfigMap cfg.stage_config t0 with _ | c0
      · rw [hm] at h0
        simp at h0
      · rw [Init_success f cfg t0 rest c0 hst hcov hm]
        simp

/-- Whatever state `Init` produces carries a factory-invocation count
of exactly one (the single entry-stage construction). -/
theorem Init_factory_calls (f : Nat → StageConfig → Option Stage)
    (cfg : ScenarioConfig) (s : ScenarioState)
    (h : Init f cfg = some s) : s.factory_calls = 1 := by
  have hs : (Init f cfg).isSome = true := by simp [h]
  rcases (Init_isSome_iff f cfg).mp hs with ⟨hne, hcov⟩
  rcases hst : cfg.stage_type with _ | ⟨t0, rest⟩
  · exact absurd hst hne
  · have h0 : (buildConfigMap cfg.stage_config t0).isSome = true :=
      hcov t0 (by rw [hst]; exact List.mem_cons_self t0 rest)
    rcases hm : buildConfigMap cfg.stage_config t0 with _ | c0
    · rw [hm] at h0
      simp at h0
    · rw [Init_success f cfg t0 rest c0 hst hcov hm] at h
      injection h with h2
      subst h2
      rfl

/-- Repeating the outcome `FINISHED` with the sentinel successor from
any state holding a live stage: every cycle returns `STATUS_DONE`, and
the current stage, the configuration and the factory count never
change. -/
theorem processSeq_fin_sentinel_replicate (f : Nat → StageConfig → Option Stage) :
    ∀ (n : Nat) (s : ScenarioState) (st : Stage),
      s.current_stage = some st →
      (processSeq f s (List.replicate n (FINISHED, NO_STAGE))).1 =
        List.replicate n STATUS_DONE ∧
      (processSeq f s (List.replicate n (FINISHED, NO_STAGE))).2.current_stage =
        s.current_stage ∧
      (processSeq f s (List.replicate n (FINISHED, NO_STAGE))).2.factory_calls =
        s.factory_calls := by
  intro n
  induction n with
  | zero =>
    intro s st h
    simp [processSeq]
  | succ n ih =>
    intro s st h
    have h2 : ({ s with scenario_status := STATUS_DONE } :
        ScenarioState).current_stage = some st := h
    rcases ih { s with scenario_status := STATUS_DONE } st h2 with ⟨i1, i2, i3⟩
    simp only [List.replicate_succ, processSeq_cons,
      Process_fin_sentinel f s st h]
    exact ⟨by rw [i1], by rw [i2], by rw [i3]⟩

/-- Repeating the self-loop outcome (`FINISHED` with the successor
equal to the current stage's own type) from any state holding a live
non-sentinel stage: every cycle returns `STATUS_PROCESSING`, and the
current stage, the configuration and the factory count never change. -/
theorem processSeq_self_loop_replicate (f : Nat → StageConfig → Option Stage) :
    ∀ (n : Nat) (s : ScenarioState) (st : Stage),
      s.current_stage = some st → st.stage_type ≠ NO_STAGE →
      (processSeq f s (List.replicate n (FINISHED, st.stage_type))).1 =
        List.replicate n STATUS_PROCESSING ∧
      (processSeq f s (List.replicate n (FINISHED, st.stage_type))).2.current_stage =
        s.current_stage ∧
      (processSeq f s (List.replicate n (FINISHED, st.stage_type))).2.factory_calls =
        s.factory_calls := by
  intro n
  induction n with
  | zero =>
    intro s st h h0
    simp [processSeq]
  | succ n ih =>
    intro s st h h0
    have h2 : ({ s with scenario_status := STATUS_PROCESSING } :
        ScenarioState).current_stage = some st := h
    rcases ih { s with scenario_status := STATUS_PROCESSING } st h2 h0 with
      ⟨i1, i2, i3⟩
    simp only [List.replicate_succ, processSeq_cons,
      Process_fin_self f s st h h0]
    exact ⟨by rw [i1], by rw [i2], by rw [i3]⟩

/-- No partial mutation of the current-stage handle: after any single
`Process` call the handle is either exactly what it was, or exactly the
factory's result for the successor's configuration block. -/
theorem Process_handle_cases (f : Nat → StageConfig → Option Stage)
    (s : ScenarioState) (ret : StageStatus) (next : StageType) :
    (Process f s ret next).2.current_stage = s.current_stage ∨
    ∃ c, buildConfigMap s.stage_config next = some c ∧
      (Process f s ret next).2.current_stage = f s.factory_calls c := by
  rcases hcs : s.current_stage with _ | st
  · rw [Process_null f s ret next hcs]
    left
    exact hcs
  · by_cases h0 : st.stage_type = NO_STAGE
    · rw [Process_stage_sentinel f s st ret next hcs h0]
      left
      exact hcs
    · cases ret with
      | ERROR =>
        rw [Process_error f s st next hcs h0]
        left
        exact hcs
      | RUNNING =>
        rw [Process_running f s st next hcs h0]
        left
        exact hcs
      | OTHER =>
        rw [Process_other f s st next hcs h0]
        left
        exact hcs
      | FINISHED =>
        by_cases hself : next = st.stage_type
        · subst hself
          rw [Process_fin_self f s st hcs h0]
          left
          exact hcs
        · by_cases hns : next = NO_STAGE
          · subst hns
            rw [Process_fin_sentinel f s st hcs]
            left
            exact hcs
          · rcases hc : buildConfigMap s.stage_config next with _ | c
            · rw [Process_fin_missing f s st next hcs h0 hself hns hc]
              left
              exact hcs
            · rcases hf : f s.factory_calls c with _ | ns
              · rw [Process_fin_facfail f s st next c hcs h0 hself hns hc hf]
                right
                exact ⟨c, rfl, by simp [hf]⟩
              · by_cases hn : ns.stage_type = NO_STAGE
                · rw [Process_fin_trans_done f s st ns next c hcs h0 hself hns hc hf hn]
                  right
                  exact ⟨c, rfl, by simp [hf]⟩
                · rw [Process_fin_trans f s st ns next c hcs h0 hself hns hc hf hn]
                  right
                  exact ⟨c, rfl, by simp [hf]⟩

/-! ### The transition relation and its determinism -/

/-- `Process` as a step relation, one constructor per source branch of
scenario.cc:67-124: `ProcessRel f s ret next out` holds when a `Process`
call on state `s`, whose current stage reports outcome `ret` and
successor `next`, may return the status/post-state pair `out`. -/
inductive ProcessRel (f : Nat → StageConfig → Option Stage) :
    ScenarioState → StageStatus → StageType →
    ScenarioStatus × ScenarioState → Prop where
  | nullStage (s : ScenarioState) (ret : StageStatus) (next : StageType)
      (h : s.current_stage = none) :
      ProcessRel f s ret next (STATUS_UNKNOWN, s)
  | sentinelStage (s : ScenarioState) (st : Stage) (ret : StageStatus)
      (next : StageType)
      (h : s.current_stage = some st) (h0 : st.stage_type = NO_STAGE) :
      ProcessRel f s ret next
        (STATUS_DONE, { s with scenario_status := STATUS_DONE })
  | stageError (s : ScenarioState) (st : Stage) (next : StageType)
      (h : s.current_stage = some st) (h0 : st.stage_type ≠ NO_STAGE) :
      ProcessRel f s ERROR next
        (STATUS_UNKNOWN, { s with scenario_status := STATUS_UNKNOWN })
  | stageRunning (s : ScenarioState) (st : Stage) (next : StageType)
      (h : s.current_stage = some st) (h0 : st.stage_type ≠ NO_STAGE) :
      ProcessRel f s RUNNING next
        (STATUS_PROCESSING, { s with scenario_status := STATUS_PROCESSING })
  | stageOther (s : ScenarioState) (st : Stage) (next : StageType)
      (h : s.current_stage = some st) (h0 : st.stage_type ≠ NO_STAGE) :
      ProcessRel f s OTHER next
        (STATUS_UNKNOWN, { s with scenario_status := STATUS_UNKNOWN })
  | finSelf (s : ScenarioState) (st : Stage)
      (h : s.current_stage = some st) (h0 : st.stage_type ≠ NO_STAGE) :
      ProcessRel f s FINISHED st.stage_type
        (STATUS_PROCESSING, { s with scenario_status := STATUS_PROCESSING })
  | finSentinel (s : ScenarioState) (st : Stage)
      (h : s.current_stage = some st) (h0 : st.stage_type ≠ NO_STAGE) :
      ProcessRel f s FINISHED NO_STAGE
        (STATUS_DONE, { s with scenario_status := STATUS_DONE })
  | finNoConfig (s : ScenarioState) (st : Stage) (next : StageType)
      (h : s.current_stage = some st) (h0 : st.stage_type ≠ NO_STAGE)
      (hne : next ≠ st.stage_type) (hns : next ≠ NO_STAGE)
      (hc : buildConfigMap s.stage_config next = none) :
      ProcessRel f s FINISHED next
        (STATUS_UNKNOWN, { s with scenario_status := STATUS_UNKNOWN })
  | finFactoryFail (s : ScenarioState) (st : Stage) (next : StageType)
      (c : StageConfig)
      (h : s.current_stage = some st) (h0 : st.stage_type ≠ NO_STAGE)
      (hne : next ≠ st.stage_type) (hns : next ≠ NO_STAGE)
      (hc : buildConfigMap s.stage_config next = some c)
      (hf : f s.factory_calls c = none) :
      ProcessRel f s FINISHED next
        (STATUS_UNKNOWN,
         { s with current_stage := none
                  factory_calls := s.factory_calls + 1 })
  | finTransition (s : ScenarioState) (st ns : Stage) (next : StageType)
      (c : StageConfig)
      (h : s.current_stage = some st) (h0 : st.stage_type ≠ NO_STAGE)
      (hne : next ≠ st.stage_type) (hns : next ≠ NO_STAGE)
      (hc : buildConfigMap s.stage_config next = some c)
      (hf : f s.factory_calls c = some ns) (hn : ns.stage_type ≠ NO_STAGE) :
      ProcessRel f s FINISHED next
        (STATUS_PROCESSING,
         { s with current_stage := some ns
                  factory_calls := s.factory_calls + 1
                  scenario_status := STATUS_PROCESSING })
  | finTransitionDone (s : ScenarioState) (st ns : Stage) (next : StageType)
      (c : StageConfig)
      (h : s.current_stage = some st) (h0 : st.stage_type ≠ NO_STAGE)
      (hne : next ≠ st.stage_type) (hns : next ≠ NO_STAGE)
      (hc : buildConfigMap s.stage_config next = some c)
      (hf : f s.factory_calls c = some ns) (hn : ns.stage_type = NO_STAGE) :
      ProcessRel f s FINISHED next
        (STATUS_DONE,
         { s with current_stage := some ns
                  factory_calls := s.factory_calls + 1
                  scenario_status := STATUS_DONE })

/-- Soundness: every step the relation admits is the step the function
computes. -/
theorem ProcessRel_sound (f : Nat → StageConfig → Option Stage)
    (s : ScenarioState) (ret : StageStatus) (next : StageType)
    (out : ScenarioStatus × ScenarioState)
    (hrel : ProcessRel f s ret next out) : out = Process f s ret next := by
  cases hrel
  case nullStage h => rw [Process_null f s ret next h]
  case sentinelStage st h h0 =>
    rw [Process_stage_sentinel f s st ret next h h0]
  case stageError st h h0 => rw [Process_error f s st next h h0]
  case stageRunning st h h0 => rw [Process_running f s st next h h0]
  case stageOther st h h0 => rw [Process_other f s st next h h0]
  case finSelf st h h0 => rw [Process_fin_self f s st h h0]
  case finSentinel st h h0 => rw [Process_fin_sentinel f s st h]
  case finNoConfig st h h0 hne hns hc =>
    rw [Process_fin_missing f s st next h h0 hne hns hc]
  case finFactoryFail st c h h0 hf hne hns hc =>
    rw [Process_fin_facfail f s st next c h h0 hne hns hc hf]
  case finTransition st ns c h h0 hf hn hne hns hc =>
    rw [Process_fin_trans f s st ns next c h h0 hne hns hc hf hn]
  case finTransitionDone st ns c h h0 hf hn hne hns hc =>
    rw [Process_fin_trans_done f s st ns next c h h0 hne hns hc hf hn]

/-- Completeness: the function's step is admitted by the relation. -/
theorem ProcessRel_complete (f : Nat → StageConfig → Option Stage)
    (s : ScenarioState) (ret : StageStatus) (next : StageType) :
    ProcessRel f s ret next (Process f s ret next) := by
  rcases hcs : s.current_stage with _ | st
  · rw [Process_null f s ret next hcs]
    exact ProcessRel.nullStage s ret next hcs
  · by_cases h0 : st.stage_type = NO_STAGE
    · rw [Process_stage_sentinel f s st ret next hcs h0]
      exact ProcessRel.sentinelStage s st ret next hcs h0
    · cases ret with
      | ERROR =>
        rw [Process_error f s st next hcs h0]
        exact ProcessRel.stageError s st next hcs h0
      | RUNNING =>
        rw [Process_running f s st next hcs h0]
        exact ProcessRel.stageRunning s st next hcs h0
      | OTHER =>
        rw [Process_other f s st next hcs h0]
        exact ProcessRel.stageOther s st next hcs h0
      | FINISHED =>
        by_cases hself : next = st.stage_type
        · subst hself
          rw [Process_fin_self f s st hcs h0]
          exact ProcessRel.finSelf s st hcs h0
        · by_cases hns : next = NO_STAGE
          · subst hns
            rw [Process_fin_sentinel f s st hcs]
            exact ProcessRel.finSentinel s st hcs h0
          · rcases hc : buildConfigMap s.stage_config next with _ | c
            · rw [Process_fin_missing f s st next hcs h0 hself hns hc]
              exact ProcessRel.finNoConfig s st next hcs h0 hself hns hc
            · rcases hf : f s.factory_calls c with _ | ns
              · rw [Process_fin_facfail f s st next c hcs h0 hself hns hc hf]
                exact ProcessRel.finFactoryFail s st next c hcs h0 hself hns hc hf
              · by_cases hn : ns.stage_type = NO_STAGE
                · rw [Process_fin_trans_done f s st ns next c hcs h0 hself hns hc hf hn]
                  exact ProcessRel.finTransitionDone s st ns next c hcs h0 hself hns hc hf hn
                · rw [Process_fin_trans f s st ns next c hcs h0 hself hns hc hf hn]
                  exact ProcessRel.finTransition s st ns next c hcs h0 hself hns hc hf hn

/-- Determinism of a single transition: the relation admits exactly one
outcome for given inputs. -/
theorem ProcessRel_deterministic (f : Nat → StageConfig → Option Stage)
    (s : ScenarioState) (ret : StageStatus) (next : StageType)
    (o1 o2 : ScenarioStatus × ScenarioState)
    (h1 : ProcessRel f s ret next o1) (h2 : ProcessRel f s ret next o2) :
    o1 = o2 := by
  rw [ProcessRel_sound f s ret next o1 h1, ProcessRel_sound f s ret next o2 h2]

/-- A whole run as a relation: `RunRel f s bs (tr, sf)` holds when
feeding the per-cycle outcomes `bs` through successive `Process` calls
from `s` may produce the cycle trace `tr` — each cycle's returned status
paired with the stage instance visited after that cycle — and final
state `sf`. -/
inductive RunRel (f : Nat → StageConfig → Option Stage) :
    ScenarioState → List (StageStatus × StageType) →
    List (ScenarioStatus × Option Stage) × ScenarioState → Prop where
  | nil (s : ScenarioState) : RunRel f s [] ([], s)
  | cons (s : ScenarioState) (b : StageStatus × StageType)
      (bs : List (StageStatus × StageType)) (st : ScenarioStatus)
      (s2 : ScenarioState) (tr : List (ScenarioStatus × Option Stage))
      (s3 : ScenarioState)
      (hstep : ProcessRel f s b.1 b.2 (st, s2))
      (hrest : RunRel f s2 bs (tr, s3)) :
      RunRel f s (b :: bs) ((st, s2.current_stage) :: tr, s3)

/-- Determinism of whole runs: a fixed outcome sequence admits exactly
one trace of statuses and visited stages and one final state. -/
theorem RunRel_deterministic (f : Nat → StageConfig → Option Stage)
    (s : ScenarioState) (bs : List (StageStatus × StageType))
    (o1 o2 : List (ScenarioStatus × Option Stage) × ScenarioState)
    (h1 : RunRel f s bs o1) (h2 : RunRel f s bs o2) : o1 = o2 := by
  induction h1 generalizing o2 with
  | nil s =>
    cases h2 with
    | nil => rfl
  | cons s b bs st s2 tr s3 hstep hrest ih =>
    cases h2 with
    | cons _ _ _ st2 s22 tr2 s32 hstep2 hrest2 =>
      have heq : (st, s2) = (st2, s22) :=
        ProcessRel_deterministic f s b.1 b.2 (st, s2) (st2, s22) hstep hstep2
      injection heq with hst hs2
      subst hst
      subst hs2
      have := ih (tr2, s32) hrest2
      injection this with htr hs3
      subst htr
      subst hs3
      rfl

/-! ### Concrete fixtures for witnesses and counterexamples -/

/-- A well-behaved stage factory: every construction succeeds and the
instance reports the configured stage type. -/
def typedFactory : Nat → StageConfig → Option Stage :=
  fun _ c => some ⟨c.stage_type⟩

/-- A factory whose constructions all fail. -/
def failFactory : Nat → StageConfig → Option Stage :=
  fun _ _ => none

/-- Configuration declaring stage types 1 and 2, both covered. -/
def cfgXY : ScenarioConfig := ⟨[1, 2], [⟨1⟩, ⟨2⟩]⟩

/-- Configuration declaring only stage type 1, covered. -/
def cfgX : ScenarioConfig := ⟨[1], [⟨1⟩]⟩

/-- Configuration declaring only stage type 1 but carrying an extra
configuration block for the undeclared type 2. -/
def cfgExtra : ScenarioConfig := ⟨[1], [⟨1⟩, ⟨2⟩]⟩

/-- Configuration declaring stage type 1 with no configuration blocks. -/
def cfgNoCov : ScenarioConfig := ⟨[1], []⟩

/-- The controller state `Init typedFactory cfgX` produces. -/
def sX : ScenarioState := ⟨[⟨1⟩], some ⟨1⟩, STATUS_UNKNOWN, 1⟩

/-- The controller state `Init typedFactory cfgXY` produces. -/
def sXY : ScenarioState := ⟨[⟨1⟩, ⟨2⟩], some ⟨1⟩, STATUS_UNKNOWN, 1⟩

/-- A state whose current-stage handle is null. -/
def sNull : ScenarioState := ⟨[⟨1⟩], none, STATUS_UNKNOWN, 1⟩

/-! ### The claims -/

/-- C1: for a scenario declaring stages `[X, Y]` where `X` returns
`RUNNING` twice and then `FINISHED` with successor `Y`, and `Y` then
returns `FINISHED` with successor `NO_STAGE`, the four `Process` calls
after `Init` return `PROCESSING, PROCESSING, PROCESSING, DONE`, and the
stage factory is invoked exactly twice: once at `Init` (constructing
`X`, count 1, still 1 after the two `RUNNING` cycles) and once at the
X-to-Y transition (count 2). -/
theorem c1_end_to_end_xy (f : Nat → StageConfig → Option Stage)
    (X Y n1 n2 : StageType)
    (hX : X ≠ NO_STAGE) (hY : Y ≠ NO_STAGE) (hXY : X ≠ Y)
    (hfac : ∀ n c, f n c = some ⟨c.stage_type⟩) :
    Init f ⟨[X, Y], [⟨X⟩, ⟨Y⟩]⟩ =
      some ⟨[⟨X⟩, ⟨Y⟩], some ⟨X⟩, STATUS_UNKNOWN, 1⟩ ∧
    (processSeq f ⟨[⟨X⟩, ⟨Y⟩], some ⟨X⟩, STATUS_UNKNOWN, 1⟩
        [(RUNNING, n1), (RUNNING, n2)]).2.factory_calls = 1 ∧
    (processSeq f ⟨[⟨X⟩, ⟨Y⟩], some ⟨X⟩, STATUS_UNKNOWN, 1⟩
        [(RUNNING, n1), (RUNNING, n2), (FINISHED, Y), (FINISHED, NO_STAGE)]).1 =
      [STATUS_PROCESSING, STATUS_PROCESSING, STATUS_PROCESSING, STATUS_DONE] ∧
    (processSeq f ⟨[⟨X⟩, ⟨Y⟩], some ⟨X⟩, STATUS_UNKNOWN, 1⟩
        [(RUNNING, n1), (RUNNING, n2), (FINISHED, Y), (FINISHED, NO_STAGE)]).2.factory_calls = 2 ∧
    (processSeq f ⟨[⟨X⟩, ⟨Y⟩], some ⟨X⟩, STATUS_UNKNOWN, 1⟩
        [(RUNNING, n1), (RUNNING, n2), (FINISHED, Y), (FINISHED, NO_STAGE)]).2.current_stage =
      some ⟨Y⟩ := by
  have mX : buildConfigMap [⟨X⟩, ⟨Y⟩] X = some ⟨X⟩ := by
    simp [buildConfigMap, hXY]
  have mY : buildConfigMap [⟨X⟩, ⟨Y⟩] Y = some ⟨Y⟩ := by
    simp [buildConfigMap]
  have hcov : ∀ t ∈ [X, Y],
      (buildConfigMap [(⟨X⟩ : StageConfig), ⟨Y⟩] t).isSome = true := by
    intro t ht
    simp only [List.mem_cons, List.not_mem_nil, or_false] at ht
    rcases ht with rfl | rfl
    · simp [mX]
    · simp [mY]
  have hini := Init_success f ⟨[X, Y], [⟨X⟩, ⟨Y⟩]⟩ X [Y] ⟨X⟩ rfl hcov mX
  rw [hfac 0 ⟨X⟩] at hini
  refine ⟨hini, ?_, ?_, ?_, ?_⟩ <;>
    simp [processSeq, Process, hX, hY, hXY, Ne.symm hXY, Ne.symm hX,
      Ne.symm hY, mX, mY, hfac]

/-- C1 witness: the end-to-end run at `X = 1`, `Y = 2` with the
well-typed factory produces the expected status sequence. -/
theorem c1_witness :
    (processSeq typedFactory ⟨[⟨1⟩, ⟨2⟩], some ⟨1⟩, STATUS_UNKNOWN, 1⟩
        [(RUNNING, 0), (RUNNING, 0), (FINISHED, 2), (FINISHED, NO_STAGE)]).1 =
      [STATUS_PROCESSING, STATUS_PROCESSING, STATUS_PROCESSING, STATUS_DONE] :=
  (c1_end_to_end_xy typedFactory 1 2 0 0 (by decide) (by decide) (by decide)
    (fun _ _ => rfl)).2.2.1

/-- C2 counterexample: from the state `Init` produces for `cfgX`, a
`Process` call with outcome `FINISHED` and sentinel successor returns
`DONE`, but the very next call — the stage reporting `RUNNING` —
returns `PROCESSING`, not `DONE`: the controller does not latch the
`DONE` status. -/
theorem c2_counterexample :
    Init typedFactory cfgX = some sX ∧
    (processSeq typedFactory sX [(FINISHED, NO_STAGE), (RUNNING, 0)]).1 =
      [STATUS_DONE, STATUS_PROCESSING] ∧
    STATUS_PROCESSING ≠ STATUS_DONE := by
  decide

/-- C2 (amended): a `Process` call with outcome `FINISHED` and sentinel
successor returns `DONE` while retaining the current stage and invoking
no factory, and — provided the stage keeps reporting `FINISHED` with the
sentinel successor — every subsequent call again returns `DONE` with the
stage retained and the factory count unchanged. -/
theorem c2_sentinel_done_repetition (f : Nat → StageConfig → Option Stage)
    (s : ScenarioState) (st : Stage)
    (h : s.current_stage = some st) (n : Nat) :
    (processSeq f s (List.replicate n (FINISHED, NO_STAGE))).1 =
      List.replicate n STATUS_DONE ∧
    (processSeq f s (List.replicate n (FINISHED, NO_STAGE))).2.current_stage =
      s.current_stage ∧
    (processSeq f s (List.replicate n (FINISHED, NO_STAGE))).2.factory_calls =
      s.factory_calls :=
  processSeq_fin_sentinel_replicate f n s st h

/-- C2 witness: two consecutive sentinel-successor cycles from the
`Init` state of `cfgX` both return `DONE` with the factory count
unchanged. -/
theorem c2_witness :
    (processSeq typedFactory sX (List.replicate 2 (FINISHED, NO_STAGE))).1 =
      List.replicate 2 STATUS_DONE ∧
    (processSeq typedFactory sX
      (List.replicate 2 (FINISHED, NO_STAGE))).2.factory_calls = 1 :=
  ⟨(c2_sentinel_done_repetition typedFactory sX ⟨1⟩ rfl 2).1,
   (c2_sentinel_done_repetition typedFactory sX ⟨1⟩ rfl 2).2.2⟩

/-- C3: a `Process` call whose stage reports `FINISHED` with its own
stage type as successor returns `PROCESSING` and changes nothing but the
stored status — the instance is not replaced and the factory is not
invoked — and repeating that outcome any number of times from a freshly
`Init`-ed controller keeps every returned status `PROCESSING` with the
current stage unchanged and the factory still invoked exactly once. -/
theorem c3_self_loop (f : Nat → StageConfig → Option Stage)
    (cfg : ScenarioConfig) (s0 : ScenarioState) (st : Stage)
    (hini : Init f cfg = some s0)
    (hcs : s0.current_stage = some st)
    (h0 : st.stage_type ≠ NO_STAGE) (n : Nat) :
    Process f s0 FINISHED st.stage_type =
      (STATUS_PROCESSING, { s0 with scenario_status := STATUS_PROCESSING }) ∧
    (processSeq f s0 (List.replicate n (FINISHED, st.stage_type))).1 =
      List.replicate n STATUS_PROCESSING ∧
    (processSeq f s0 (List.replicate n (FINISHED, st.stage_type))).2.current_stage =
      s0.current_stage ∧
    (processSeq f s0 (List.replicate n (FINISHED, st.stage_type))).2.factory_calls = 1 := by
  rcases processSeq_self_loop_replicate f n s0 st hcs h0 with ⟨i1, i2, i3⟩
  exact ⟨Process_fin_self f s0 st hcs h0, i1, i2,
    by rw [i3, Init_factory_calls f cfg s0 hini]⟩

/-- C3 witness: three self-loop cycles from the `Init` state of `cfgX`
all return `PROCESSING` with the stage retained and one factory call. -/
theorem c3_witness :
    (processSeq typedFactory sX (List.replicate 3 (FINISHED, 1))).1 =
      List.replicate 3 STATUS_PROCESSING ∧
    (processSeq typedFactory sX
      (List.replicate 3 (FINISHED, 1))).2.current_stage = sX.current_stage ∧
    (processSeq typedFactory sX
      (List.replicate 3 (FINISHED, 1))).2.factory_calls = 1 :=
  ⟨(c3_self_loop typedFactory cfgX sX ⟨1⟩ rfl rfl (by decide) 3).2.1,
   (c3_self_loop typedFactory cfgX sX ⟨1⟩ rfl rfl (by decide) 3).2.2.1,
   (c3_self_loop typedFactory cfgX sX ⟨1⟩ rfl rfl (by decide) 3).2.2.2⟩

/-- C4: a `Process` call whose stage reports `FINISHED` with a
non-sentinel successor absent from the configuration index returns
`UNKNOWN`, constructs nothing (factory count unchanged), and leaves the
current stage instance unchanged. -/
theorem c4_missing_successor_config (f : Nat → StageConfig → Option Stage)
    (s : ScenarioState) (st : Stage) (next : StageType)
    (hcs : s.current_stage = some st) (h0 : st.stage_type ≠ NO_STAGE)
    (hne : next ≠ st.stage_type) (hns : next ≠ NO_STAGE)
    (hc : buildConfigMap s.stage_config next = none) :
    Process f s FINISHED next =
      (STATUS_UNKNOWN, { s with scenario_status := STATUS_UNKNOWN }) ∧
    (Process f s FINISHED next).2.current_stage = s.current_stage ∧
    (Process f s FINISHED next).2.factory_calls = s.factory_calls := by
  have h := Process_fin_missing f s st next hcs h0 hne hns hc
  exact ⟨h, by rw [h], by rw [h]⟩

/-- C4 witness: from the `Init` state of `cfgX`, a `FINISHED` outcome
naming the unconfigured successor 5 yields `UNKNOWN` with the stage and
factory count unchanged. -/
theorem c4_witness :
    Process typedFactory sX FINISHED 5 =
      (STATUS_UNKNOWN, ⟨[⟨1⟩], some ⟨1⟩, STATUS_UNKNOWN, 1⟩) ∧
    (Process typedFactory sX FINISHED 5).2.current_stage = some ⟨1⟩ :=
  ⟨(c4_missing_successor_config typedFactory sX ⟨1⟩ 5 rfl (by decide)
      (by decide) (by decide) (by decide)).1,
   (c4_missing_successor_config typedFactory sX ⟨1⟩ 5 rfl (by decide)
      (by decide) (by decide) (by decide)).2.1⟩

/-- C5: when the successor's configuration exists but the factory yields
no usable instance, `Process` returns `UNKNOWN` (the null result having
replaced the handle); and after any `Process` call whatsoever the
current-stage handle is never half-mutated — it is either exactly the
previous handle or exactly the factory's result for the successor's
configuration block. -/
theorem c5_no_partial_mutation (f : Nat → StageConfig → Option Stage) :
    (∀ (s : ScenarioState) (st : Stage) (next : StageType) (c : StageConfig),
      s.current_stage = some st → st.stage_type ≠ NO_STAGE →
      next ≠ st.stage_type → next ≠ NO_STAGE →
      buildConfigMap s.stage_config next = some c →
      f s.factory_calls c = none →
      Process f s FINISHED next =
        (STATUS_UNKNOWN,
         { s with current_stage := none
                  factory_calls := s.factory_calls + 1 })) ∧
    (∀ (s : ScenarioState) (ret : StageStatus) (next : StageType),
      (Process f s ret next).2.current_stage = s.current_stage ∨
      ∃ c, buildConfigMap s.stage_config next = some c ∧
        (Process f s ret next).2.current_stage = f s.factory_calls c) :=
  ⟨fun s st next c hcs h0 hne hns hc hf =>
    Process_fin_facfail f s st next c hcs h0 hne hns hc hf,
   fun s ret next => Process_handle_cases f s ret next⟩

/-- C5 witness: with the always-failing factory, the 1-to-2 transition
from the `Init` state of `cfgXY` returns `UNKNOWN` and leaves no
half-constructed handle — the handle is exactly null. -/
theorem c5_witness :
    Process failFactory sXY FINISHED 2 =
      (STATUS_UNKNOWN, ⟨[⟨1⟩, ⟨2⟩], none, STATUS_UNKNOWN, 2⟩) :=
  (c5_no_partial_mutation failFactory).1 sXY ⟨1⟩ 2 ⟨2⟩ rfl (by decide)
    (by decide) (by decide) (by decide) rfl

/-- C6 counterexample: `cfgExtra` declares only stage type 1 (which has
a configuration block, so the claim's hypothesis holds) yet `Init`
succeeds with the undeclared type 2 also present in the
configuration-index key set — the key set strictly contains, rather than
equals, the declared set. -/
theorem c6_counterexample :
    (Init typedFactory cfgExtra).isSome = true ∧
    (buildConfigMap cfgExtra.stage_config 1).isSome = true ∧
    (buildConfigMap cfgExtra.stage_config 2).isSome = true ∧
    ¬(2 ∈ cfgExtra.stage_type) := by
  decide

/-- C6 (amended): `Init` succeeds exactly when the declared sequence is
non-empty and every declared stage type has a configuration block — so
on success the index's key set contains the declared set — and the key
set is contained in the declared set only under the extra assumption
that every configuration block's type is declared (`Init` itself never
checks that direction). -/
theorem c6_config_coverage (f : Nat → StageConfig → Option Stage) :
    (∀ cfg : ScenarioConfig, (Init f cfg).isSome = true ↔
      (cfg.stage_type ≠ [] ∧ ∀ t ∈ cfg.stage_type,
        (buildConfigMap cfg.stage_config t).isSome = true)) ∧
    (∀ (cfg : ScenarioConfig) (t : StageType) (c : StageConfig),
      (∀ c2 ∈ cfg.stage_config, c2.stage_type ∈ cfg.stage_type) →
      buildConfigMap cfg.stage_config t = some c → t ∈ cfg.stage_type) := by
  refine ⟨fun cfg => Init_isSome_iff f cfg, ?_⟩
  intro cfg t c hsub hc
  rcases buildConfigMap_some_mem cfg.stage_config t c hc with ⟨hm, ht⟩
  rw [← ht]
  exact hsub c hm

/-- C6 witness: `Init` succeeds on the fully covered `cfgXY`. -/
theorem c6_witness : (Init typedFactory cfgXY).isSome = true :=
  ((c6_config_coverage typedFactory).1 cfgXY).mpr ⟨by decide, by decide⟩

/-- C7 counterexample: `cfgNoCov` has a non-empty declared stage
sequence, yet `Init` fails fatally (missing configuration block) and
installs no stage — non-emptiness alone does not make `Init` complete
and construct the entry stage. -/
theorem c7_counterexample :
    cfgNoCov.stage_type = [1] ∧ Init typedFactory cfgNoCov = none := by
  decide

/-- C7 (amended): `Init` fails fatally when the declared stage sequence
is empty; when it is non-empty and additionally every declared stage
type has a configuration block, `Init` completes, constructs the first
declared stage type's instance via the factory (passing that type's
configuration block) and installs the result — checked or not — as the
current stage. -/
theorem c7_init_entry_stage (f : Nat → StageConfig → Option Stage) :
    (∀ cfg : ScenarioConfig, cfg.stage_type = [] → Init f cfg = none) ∧
    (∀ (cfg : ScenarioConfig) (t0 : StageType) (rest : List StageType)
        (c0 : StageConfig),
      cfg.stage_type = t0 :: rest →
      (∀ t ∈ cfg.stage_type,
        (buildConfigMap cfg.stage_config t).isSome = true) →
      buildConfigMap cfg.stage_config t0 = some c0 →
      Init f cfg =
        some ⟨cfg.stage_config, f 0 c0, STATUS_UNKNOWN, 1⟩) :=
  ⟨fun cfg h => Init_empty f cfg h,
   fun cfg t0 rest c0 h hcov h0 => Init_success f cfg t0 rest c0 h hcov h0⟩

/-- C7 witness: `Init` on `cfgXY` installs the factory's stage for the
first declared type, 1. -/
theorem c7_witness :
    Init typedFactory cfgXY =
      some ⟨[⟨1⟩, ⟨2⟩], some ⟨1⟩, STATUS_UNKNOWN, 1⟩ :=
  (c7_init_entry_stage typedFactory).2 cfgXY 1 [2] ⟨1⟩ rfl (by decide)
    (by decide)

/-- C8: a `Process` call whose stage reports `ERROR` returns `UNKNOWN`
and changes nothing but the stored status: the current stage instance
stays in place, no transition occurs and no factory call is made. -/
theorem c8_error_keeps_stage (f : Nat → StageConfig → Option Stage)
    (s : ScenarioState) (st : Stage) (next : StageType)
    (hcs : s.current_stage = some st) (h0 : st.stage_type ≠ NO_STAGE) :
    Process f s ERROR next =
      (STATUS_UNKNOWN, { s with scenario_status := STATUS_UNKNOWN }) ∧
    (Process f s ERROR next).2.current_stage = s.current_stage ∧
    (Process f s ERROR next).2.factory_calls = s.factory_calls := by
  have h := Process_error f s st next hcs h0
  exact ⟨h, by rw [h], by rw [h]⟩

/-- C8 witness: an `ERROR` outcome from the `Init` state of `cfgX`
yields `UNKNOWN` with the stage retained. -/
theorem c8_witness :
    Process typedFactory sX ERROR 0 =
      (STATUS_UNKNOWN, ⟨[⟨1⟩], some ⟨1⟩, STATUS_UNKNOWN, 1⟩) ∧
    (Process typedFactory sX ERROR 0).2.current_stage = some ⟨1⟩ :=
  ⟨(c8_error_keeps_stage typedFactory sX ⟨1⟩ 0 rfl (by decide)).1,
   (c8_error_keeps_stage typedFactory sX ⟨1⟩ 0 rfl (by decide)).2.1⟩

/-- C9: from a freshly `Init`-ed controller, a fixed sequence of stage
outcomes and `NextStage` answers admits exactly one trace of returned
statuses and visited stage instances and one final state — the
controller's transition function is deterministic in its inputs. -/
theorem c9_transition_determinism (f : Nat → StageConfig → Option Stage)
    (cfg : ScenarioConfig) (s0 : ScenarioState)
    (_hini : Init f cfg = some s0)
    (bs : List (StageStatus × StageType))
    (o1 o2 : List (ScenarioStatus × Option Stage) × ScenarioState)
    (h1 : RunRel f s0 bs o1) (h2 : RunRel f s0 bs o2) : o1 = o2 :=
  RunRel_deterministic f s0 bs o1 o2 h1 h2

/-- C9 witness: the empty replay from the `Init` state of `cfgX` has a
unique outcome. -/
theorem c9_witness :
    (([], sX) : List (ScenarioStatus × Option Stage) × ScenarioState) =
      (([], sX) : List (ScenarioStatus × Option Stage) × ScenarioState) :=
  c9_transition_determinism typedFactory cfgX sX (by decide) []
    ([], sX) ([], sX) (RunRel.nil sX) (RunRel.nil sX)

/-- C10: a null current-stage handle is absorbing — every later
`Process` call returns `UNKNOWN` with the state (hence the factory
count and the absent handle) untouched, whatever the oracle inputs —
and the handle can be null straight after a successful `Init`, which
installs a failed factory result without checking it and without a
fatal error. -/
theorem c10_null_handle_absorbing (f : Nat → StageConfig → Option Stage) :
    (∀ s : ScenarioState, s.current_stage = none →
      ∀ bs : List (StageStatus × StageType),
        processSeq f s bs = (List.replicate bs.length STATUS_UNKNOWN, s)) ∧
    (∀ (cfg : ScenarioConfig) (t0 : StageType) (rest : List StageType)
        (c0 : StageConfig),
      cfg.stage_type = t0 :: rest →
      (∀ t ∈ cfg.stage_type,
        (buildConfigMap cfg.stage_config t).isSome = true) →
      buildConfigMap cfg.stage_config t0 = some c0 →
      f 0 c0 = none →
      Init f cfg = some ⟨cfg.stage_config, none, STATUS_UNKNOWN, 1⟩) := by
  refine ⟨fun s h bs => processSeq_null f s h bs, ?_⟩
  intro cfg t0 rest c0 h hcov h0 hf
  rw [Init_success f cfg t0 rest c0 h hcov h0, hf]

/-- C10 witness: with a null handle, two further cycles both return
`UNKNOWN` and leave the state untouched; and `Init` with the
always-failing factory on `cfgX` completes with a null handle. -/
theorem c10_witness :
    processSeq typedFactory sNull [(RUNNING, 0), (FINISHED, 2)] =
      ([STATUS_UNKNOWN, STATUS_UNKNOWN], sNull) ∧
    Init failFactory cfgX = some ⟨[⟨1⟩], none, STATUS_UNKNOWN, 1⟩ :=
  ⟨(c10_null_handle_absorbing typedFactory).1 sNull rfl
      [(RUNNING, 0), (FINISHED, 2)],
   (c10_null_handle_absorbing failFactory).2 cfgX 1 [] ⟨1⟩ rfl (by decide)
      (by decide) rfl⟩

end Apollo
